import Mathlib

/-!
Verification of the deadline-management AI service core
(`src/ai-service/data_processing.py` and the response-normalization part of
`src/ai-service/main.py`), shallowly embedded in Lean 4.

Timestamps are modelled as rational numbers of seconds counted from a Monday
00:00 epoch, so that calendar weekday and hour of day are simple modular
computations, matching `datetime.weekday()` (Monday = 0) and `datetime.hour`.
`datetime.now()` is modelled by passing the relevant snapshot explicitly: the
Python code calls `datetime.now()` inside `extract_deadline_features`, hence
every embedded function that transitively extracts features receives its own
`now` argument at exactly the places the Python code takes a fresh snapshot.
-/

namespace DeadlinePoc

/-- Python whitespace class used by `str.strip`, `str.split()` and the `\s`
regex class: space, tab, newline, carriage return, vertical tab, form feed. -/
def pyIsSpace (c : Char) : Bool :=
  c = ' ' || c = '\t' || c = '\n' || c = '\r' || c = '\x0b' || c = '\x0c'

/-- Python `str.lower()` (ASCII letters; the French source labels are already
lower-case on their accented letters, which `lower()` leaves unchanged). -/
def pyLower (s : String) : String := String.mk (s.data.map Char.toLower)

/-- Python `str.strip()`. -/
def pyStrip (s : String) : String :=
  String.mk (((s.data.dropWhile pyIsSpace).reverse.dropWhile pyIsSpace).reverse)

/-- Split a character list at every separator character, keeping empty
segments (the behavior of Python `str.split(sep)` for a one-character
separator). -/
def splitOnPred (p : Char → Bool) : List Char → List (List Char)
  | [] => [[]]
  | c :: r =>
    if p c then [] :: splitOnPred p r
    else
      match splitOnPred p r with
      | [] => [[c]]
      | s :: rest => (c :: s) :: rest

/-- Python `str.split()` with no separator: split on whitespace runs,
dropping empty pieces; used for `title.split()`. -/
def pySplitWords (s : String) : List String :=
  ((splitOnPred pyIsSpace s.data).map String.mk).filter (fun w => w ≠ "")

/-- Seconds-since-Monday-midnight timestamp model of a naive `datetime`. -/
abbrev PyTime := ℚ

/-- `datetime.weekday()`: Monday = 0 … Sunday = 6. -/
def weekdayOf (t : PyTime) : ℤ := (⌊t / 86400⌋) % 7

/-- `datetime.hour`: hour component of the timestamp, 0–23. -/
def hourOf (t : PyTime) : ℤ := (⌊t⌋ % 86400) / 3600

/-- Python `int(q)` on a float: truncation toward zero. -/
def intTrunc (q : ℚ) : ℤ := if q < 0 then ⌈q⌉ else ⌊q⌋

/-- `DeadlineInfo` (src/ai-service/data_processing.py:19): the validated
input record. `deadlineDate` is the due-timestamp in the model above. -/
structure DeadlineInfo where
  id : Option String
  title : String
  description : Option String
  deadlineDate : PyTime
  status : String
  priority : String
  projectId : Option String
  projectName : Option String
deriving DecidableEq

/-- The feature dictionary built by `extract_deadline_features`
(src/ai-service/data_processing.py:38). -/
structure Features where
  days_until_deadline : ℚ
  is_overdue : Nat
  priority_value : Nat
  status_progress : ℚ
  has_description : Nat
  title_word_count : Nat
  is_weekend_deadline : Nat
  hour_of_deadline : ℤ
deriving DecidableEq

/-- `priority_map.get(priority.lower(), 2)` (data_processing.py:56). -/
def priorityMap (p : String) : Nat :=
  if p = "critique" then 4
  else if p = "haute" then 3
  else if p = "moyenne" then 2
  else if p = "basse" then 1
  else 2

/-- `status_progress_map.get(status.lower(), 0.0)` (data_processing.py:65). -/
def statusProgressMap (s : String) : ℚ :=
  if s = "nouvelle" then 0
  else if s = "en cours" then 1/2
  else if s = "en attente" then 3/10
  else if s = "complétée" then 1
  else if s = "annulée" then -1
  else 0

/-- `extract_deadline_features` (data_processing.py:38-90).  The Python code
takes `now = datetime.now()` at the top of the function; the snapshot is the
explicit `now` argument here. -/
def extract_deadline_features (d : DeadlineInfo) (now : PyTime) : Features :=
  let days_until_deadline := (d.deadlineDate - now) / 86400
  { days_until_deadline := days_until_deadline
    is_overdue := if days_until_deadline < 0 then 1 else 0
    priority_value := priorityMap (pyLower d.priority)
    status_progress := statusProgressMap (pyLower d.status)
    has_description :=
      match d.description with
      | some ds => if ds ≠ "" ∧ 10 < ds.length then 1 else 0
      | none => 0
    title_word_count := (pySplitWords d.title).length
    is_weekend_deadline := if 5 ≤ weekdayOf d.deadlineDate then 1 else 0
    hour_of_deadline := hourOf d.deadlineDate }

/-- Status labels counted as completed by the historical computations
(data_processing.py:238 and 313). -/
def completedStatuses : List String := ["complétée", "terminée"]

/-- `priority_adjustment.get(priority_value, 0)` (data_processing.py:211). -/
def priorityAdjustment (n : Nat) : ℚ :=
  if n = 1 then 0
  else if n = 2 then 1/20
  else if n = 3 then 1/10
  else if n = 4 then 3/20
  else 0

/-- `status_adjustment.get(status_progress, 0)` (data_processing.py:219);
keyed by the exact values 0.0, 0.3, 0.5, 1.0, so `-1.0` (cancelled) falls to
the default 0. -/
def statusAdjustment (q : ℚ) : ℚ :=
  if q = 0 then 0
  else if q = 3/10 then 1/10
  else if q = 1/2 then 3/10
  else if q = 1 then 1/2
  else 0

/-- Base probability bucketed by remaining days (data_processing.py:199-208),
first matching tier wins. -/
def baseProbability (days_left : ℚ) : ℚ :=
  if days_left < 0 then 1/10
  else if days_left < 1 then 2/5
  else if days_left < 3 then 3/5
  else if days_left < 7 then 3/4
  else 17/20

/-- `completed / len(historical_data)` (data_processing.py:238-239). -/
def historicalRate (l : List DeadlineInfo) : ℚ :=
  ((l.countP (fun h => completedStatuses.contains (pyLower h.status))) : ℚ) / (l.length : ℚ)

/-- `estimate_completion_probability` (data_processing.py:175-247): base
bucket, additive priority and status adjustments, weekend penalty, optional
historical blend, final clamp to [0, 1] — in exactly this order. -/
def estimate_completion_probability (d : DeadlineInfo)
    (historical_data : Option (List DeadlineInfo)) (now : PyTime) : ℚ :=
  let features := extract_deadline_features d now
  let probability := baseProbability features.days_until_deadline
      + priorityAdjustment features.priority_value
      + statusAdjustment features.status_progress
  let probability :=
    if features.is_weekend_deadline ≠ 0 then probability - 1/20 else probability
  let probability :=
    match historical_data with
    | some l =>
        if 0 < l.length then (7/10) * probability + (3/10) * historicalRate l
        else probability
    | none => probability
  max 0 (min 1 probability)

/-- A risk-factor dictionary as produced by `analyze_deadline_risks`; the
minimal safe result of `analyze_deadline` omits the description key. -/
structure RiskFactor where
  factor : String
  impact : String
  description : Option String
deriving DecidableEq

/-- Time-tier risk rule of `analyze_deadline_risks` (data_processing.py:267-285):
mutually exclusive tiers, at most one factor. -/
def timeRiskFactors (days_left : ℚ) : List RiskFactor :=
  if days_left < 0 then
    [⟨"Échéance dépassée", "critical",
      some ("L\'échéance est déjà dépassée de "
        ++ toString (Int.natAbs (intTrunc days_left)) ++ " jours.")⟩]
  else if days_left < 1 then
    [⟨"Délai imminent", "high", some "Moins de 24 heures avant l\'échéance."⟩]
  else if days_left < 3 then
    [⟨"Délai court", "medium",
      some ("Seulement " ++ toString (intTrunc days_left) ++ " jours avant l\'échéance.")⟩]
  else []

/-- Priority/progress risk rule (data_processing.py:288-293). -/
def priorityProgressRiskFactors (f : Features) : List RiskFactor :=
  if 3 ≤ f.priority_value ∧ f.status_progress < 1/2 then
    [⟨"Tâche haute priorité peu avancée", "high",
      some "Échéance de haute priorité avec peu de progrès."⟩]
  else []

/-- Weekend risk rule (data_processing.py:296-301). -/
def weekendRiskFactors (f : Features) : List RiskFactor :=
  if f.is_weekend_deadline ≠ 0 then
    [⟨"Échéance en weekend", "low",
      some "L\'échéance tombe pendant un weekend, ce qui peut compliquer la finalisation."⟩]
  else []

/-- Off-hours risk rule (data_processing.py:304-309). -/
def offHoursRiskFactors (f : Features) : List RiskFactor :=
  if f.hour_of_deadline < 9 ∨ 17 < f.hour_of_deadline then
    [⟨"Échéance hors heures de bureau", "low",
      some "L\'échéance est fixée en dehors des heures normales de travail."⟩]
  else []

/-- Historical risk rule (data_processing.py:312-321): only with at least 3
historical records and a missed rate above one half. -/
def historicalRiskFactors (historical_data : Option (List DeadlineInfo)) : List RiskFactor :=
  match historical_data with
  | some l =>
      if 3 ≤ l.length then
        let missed := l.countP (fun h => ¬ completedStatuses.contains (pyLower h.status))
        let missed_rate : ℚ := (missed : ℚ) / (l.length : ℚ)
        if 1/2 < missed_rate then
          [⟨"Historique défavorable", "medium",
            some ("Historiquement, " ++ toString (intTrunc (missed_rate * 100))
              ++ "% des échéances similaires n\'ont pas été complétées dans les délais.")⟩]
        else []
      else []
  | none => []

/-- `analyze_deadline_risks` (data_processing.py:249-323): the five rules
evaluated as an ordered cascade, results appended in rule order. -/
def analyze_deadline_risks (d : DeadlineInfo)
    (historical_data : Option (List DeadlineInfo)) (now : PyTime) : List RiskFactor :=
  let f := extract_deadline_features d now
  timeRiskFactors f.days_until_deadline
    ++ priorityProgressRiskFactors f
    ++ weekendRiskFactors f
    ++ offHoursRiskFactors f
    ++ historicalRiskFactors historical_data

/-- Time-tier recommendations (data_processing.py:344-352). -/
def timeRecommendations (days_left : ℚ) : List String :=
  if days_left < 0 then
    ["Redéfinir l\'échéance avec une nouvelle date réaliste",
     "Communiquer immédiatement avec les parties prenantes concernant le retard"]
  else if days_left < 1 then
    ["Concentrer tous les efforts sur cette tâche en priorité",
     "Éliminer toutes les distractions et réunions non essentielles"]
  else if days_left < 3 then
    ["Allouer un bloc de temps dédié chaque jour à cette tâche",
     "Identifier et résoudre rapidement les blocages potentiels"]
  else []

/-- Status-based recommendations (data_processing.py:355-357). -/
def statusRecommendations (f : Features) : List String :=
  if f.status_progress < 3/10 then
    ["Décomposer l\'échéance en sous-tâches plus petites et gérables",
     "Définir des jalons intermédiaires pour suivre la progression"]
  else []

/-- Priority-based recommendations (data_processing.py:360-362). -/
def priorityRecommendations (f : Features) : List String :=
  if 3 ≤ f.priority_value then
    ["Envisager de déléguer d\'autres tâches moins prioritaires",
     "Solliciter des ressources supplémentaires si nécessaire"]
  else []

/-- Risk-keyed recommendations (data_processing.py:365-371): one string per
risk whose factor name matches, in risk-list order. -/
def riskKeyedRecommendations (risks : List RiskFactor) : List String :=
  risks.filterMap (fun r =>
    if r.factor = "Échéance en weekend" then
      some "Planifier l\'achèvement pour le vendredi précédent"
    else if r.factor = "Historique défavorable" then
      some "Analyser les causes d\'échecs précédents pour éviter les mêmes erreurs"
    else if r.factor = "Tâche haute priorité peu avancée" then
      some "Organiser une session de travail intensif (type \'sprint\') sur cette tâche"
    else none)

/-- Generic fallback recommendations (data_processing.py:374-377). -/
def genericRecommendations : List String :=
  ["Mettre en place des points de contrôle réguliers pour suivre l\'avancement",
   "Documenter les progrès et les obstacles rencontrés",
   "Maintenir une communication claire avec toutes les parties prenantes"]

/-- `generate_deadline_recommendations` (data_processing.py:325-379). -/
def generate_deadline_recommendations (d : DeadlineInfo)
    (risks : List RiskFactor) (now : PyTime) : List String :=
  let f := extract_deadline_features d now
  let recommendations :=
    timeRecommendations f.days_until_deadline
      ++ statusRecommendations f
      ++ priorityRecommendations f
      ++ riskKeyedRecommendations risks
  let recommendations :=
    if recommendations.length < 3 then recommendations ++ genericRecommendations
    else recommendations
  recommendations.take 5

/-- The statistics dictionary built by `compute_deadline_stats`
(data_processing.py:120-173). -/
structure DeadlineStats where
  count : Nat
  overdue_count : Nat
  overdue_percentage : ℚ
  avg_days_left : ℚ
  priority_distribution : List (String × ℚ)
  status_distribution : List (String × ℚ)
deriving DecidableEq

/-- Insertion-ordered counting dictionary, as Python dict building by
`counts[k] = counts.get(k, 0) + 1`. -/
def tallyInsert (acc : List (String × Nat)) (k : String) : List (String × Nat) :=
  match acc with
  | [] => [(k, 1)]
  | (k', v) :: rest => if k' = k then (k', v + 1) :: rest else (k', v) :: tallyInsert rest k

/-- Tally of a label list in first-appearance order. -/
def tally (ls : List String) : List (String × Nat) := ls.foldl tallyInsert []

/-- `compute_deadline_stats` (data_processing.py:120-173). -/
def compute_deadline_stats (deadlines : List DeadlineInfo) (now : PyTime) : DeadlineStats :=
  if deadlines = [] then ⟨0, 0, 0, 0, [], []⟩
  else
    let total := deadlines.length
    let overdue := deadlines.countP (fun d => d.deadlineDate < now)
    let days_left := deadlines.map (fun d => (d.deadlineDate - now) / 86400)
    { count := total
      overdue_count := overdue
      overdue_percentage := ((overdue : ℚ) / (total : ℚ)) * 100
      avg_days_left := days_left.sum / (total : ℚ)
      priority_distribution :=
        (tally (deadlines.map (fun d => pyLower d.priority))).map
          (fun kv => (kv.1, ((kv.2 : ℚ) / (total : ℚ)) * 100))
      status_distribution :=
        (tally (deadlines.map (fun d => pyLower d.status))).map
          (fun kv => (kv.1, ((kv.2 : ℚ) / (total : ℚ)) * 100)) }

/-- The result dictionary assembled by `analyze_deadline`
(data_processing.py:414-424); the minimal safe result of the except branch
has no features and no historical-stats entries. -/
structure AnalysisResults where
  deadline_info : DeadlineInfo
  features : Option Features
  completion_probability : ℚ
  risk_factors : List RiskFactor
  recommendations : List String
  historical_stats : Option DeadlineStats
deriving DecidableEq

/-- The minimal safe result returned by the except branch of
`analyze_deadline` (data_processing.py:430-435). -/
def minimalSafeResult (d : DeadlineInfo) : AnalysisResults :=
  { deadline_info := d
    features := none
    completion_probability := 1/2
    risk_factors := [⟨"Erreur d\'analyse", "medium", none⟩]
    recommendations := ["Vérifier les données de l\'échéance"]
    historical_stats := none }

/-- The try-block body of `analyze_deadline` (data_processing.py:397-425).
Each of the five steps calls `datetime.now()` on its own (inside
`extract_deadline_features`, respectively at the top of
`compute_deadline_stats`), so each step receives its own snapshot argument
`t1` … `t5`, in call order. -/
def analyzeBody (d : DeadlineInfo) (historical_data : Option (List DeadlineInfo))
    (t1 t2 t3 t4 t5 : PyTime) : AnalysisResults :=
  let features := extract_deadline_features d t1
  let probability := estimate_completion_probability d historical_data t2
  let risks := analyze_deadline_risks d historical_data t3
  let recommendations := generate_deadline_recommendations d risks t4
  let historical_stats :=
    match historical_data with
    | some l => if l ≠ [] then some (compute_deadline_stats l t5) else none
    | none => none
  { deadline_info := d
    features := some features
    completion_probability := probability
    risk_factors := risks
    recommendations := recommendations
    historical_stats := historical_stats }

/-- The `try … except Exception` wrapper of `analyze_deadline`
(data_processing.py:397-435): any exception raised by the body is replaced by
the minimal safe result; a normal body result is returned unchanged. -/
def analyze_deadline_catch (d : DeadlineInfo)
    (body : Except String AnalysisResults) : AnalysisResults :=
  match body with
  | .ok r => r
  | .error _ => minimalSafeResult d

/-- `analyze_deadline` (data_processing.py:383-435).  With a well-formed
record every embedded step is total, so the body never raises. -/
def analyze_deadline (d : DeadlineInfo) (historical_data : Option (List DeadlineInfo))
    (t1 t2 t3 t4 t5 : PyTime) : AnalysisResults :=
  analyze_deadline_catch d (.ok (analyzeBody d historical_data t1 t2 t3 t4 t5))

/-! ## The degradation chain of the `/predict` endpoint (main.py:374-516) -/

/-- JSON values as produced by Python `json.loads`. -/
inductive JsonVal where
  | jnull : JsonVal
  | jbool (b : Bool) : JsonVal
  | jnum (q : ℚ) : JsonVal
  | jstr (s : String) : JsonVal
  | jarr (items : List JsonVal) : JsonVal
  | jobj (fields : List (String × JsonVal)) : JsonVal

/-- JSON insignificant whitespace. -/
def jWs (c : Char) : Bool := c = ' ' || c = '\t' || c = '\n' || c = '\r'

/-- Value of one hexadecimal digit. -/
def hexVal (c : Char) : Option Nat :=
  if '0' ≤ c ∧ c ≤ '9' then some (c.toNat - '0'.toNat)
  else if 'a' ≤ c ∧ c ≤ 'f' then some (c.toNat - 'a'.toNat + 10)
  else if 'A' ≤ c ∧ c ≤ 'F' then some (c.toNat - 'A'.toNat + 10)
  else none

/-- JSON string body after the opening quote: characters and escapes up to
the closing quote (fuel-based, the fuel bounds the number of characters). -/
def jparseStringAux : Nat → List Char → List Char → Option (String × List Char)
  | 0, _, _ => none
  | n+1, acc, cs =>
    match cs with
    | [] => none
    | '"' :: r => some (String.mk acc.reverse, r)
    | '\\' :: r =>
      (match r with
       | '"' :: r2 => jparseStringAux n ('"' :: acc) r2
       | '\\' :: r2 => jparseStringAux n ('\\' :: acc) r2
       | '/' :: r2 => jparseStringAux n ('/' :: acc) r2
       | 'b' :: r2 => jparseStringAux n ('\x08' :: acc) r2
       | 'f' :: r2 => jparseStringAux n ('\x0c' :: acc) r2
       | 'n' :: r2 => jparseStringAux n ('\n' :: acc) r2
       | 'r' :: r2 => jparseStringAux n ('\r' :: acc) r2
       | 't' :: r2 => jparseStringAux n ('\t' :: acc) r2
       | 'u' :: h1 :: h2 :: h3 :: h4 :: r2 =>
         (match hexVal h1, hexVal h2, hexVal h3, hexVal h4 with
          | some a, some b, some c, some d =>
              jparseStringAux n (Char.ofNat (((a * 16 + b) * 16 + c) * 16 + d) :: acc) r2
          | _, _, _, _ => none)
       | _ => none)
    | c :: r => jparseStringAux n (c :: acc) r

/-- Decimal digits to a natural number. -/
def digitsToNat (cs : List Char) : Nat :=
  cs.foldl (fun a c => a * 10 + (c.toNat - '0'.toNat)) 0

/-- JSON number grammar `-? int frac? exp?` with `int = 0 | [1-9][0-9]*`;
a match that the tokenizer would cut short (leading zeros) is rejected here,
which makes the overall decode fail in the same cases Python's does. -/
def jparseNumber (cs : List Char) : Option (ℚ × List Char) :=
  let signAndRest : Bool × List Char :=
    match cs with
    | '-' :: r => (true, r)
    | _ => (false, cs)
  let neg := signAndRest.1
  let cs1 := signAndRest.2
  let ip := cs1.takeWhile Char.isDigit
  let cs2 := cs1.drop ip.length
  if ip = [] then none
  else if 1 < ip.length ∧ ip.headD '0' = '0' then none
  else
    let fracAndRest : List Char × List Char :=
      match cs2 with
      | '.' :: r =>
        let f := r.takeWhile Char.isDigit
        if f = [] then ([], cs2) else (f, r.drop f.length)
      | _ => ([], cs2)
    let fp := fracAndRest.1
    let cs3 := fracAndRest.2
    let expAndRest : ℤ × List Char :=
      match cs3 with
      | 'e' :: r | 'E' :: r =>
        let signRest : ℤ × List Char :=
          match r with
          | '+' :: q => (1, q)
          | '-' :: q => (-1, q)
          | _ => (1, r)
        let ed := signRest.2.takeWhile Char.isDigit
        if ed = [] then (0, cs3)
        else (signRest.1 * (digitsToNat ed : ℤ), signRest.2.drop ed.length)
      | _ => (0, cs3)
    let mantissa : ℚ := (digitsToNat ip : ℚ) + (digitsToNat fp : ℚ) / ((10 : ℚ) ^ fp.length)
    let value : ℚ := mantissa * (10 : ℚ) ^ expAndRest.1
    some ((if neg then -value else value), expAndRest.2)

mutual

/-- Recursive-descent JSON value parse (fuel-based), mirroring the grammar
accepted by Python `json.loads`: leading whitespace, then one value. -/
def jparseVal : Nat → List Char → Option (JsonVal × List Char)
  | 0, _ => none
  | n+1, cs =>
    match cs.dropWhile jWs with
    | '\x7b' :: r =>
      (match r.dropWhile jWs with
       | '\x7d' :: r2 => some (.jobj [], r2)
       | _ => jparseMembers n (r.dropWhile jWs) [])
    | '[' :: r =>
      (match r.dropWhile jWs with
       | ']' :: r2 => some (.jarr [], r2)
       | _ => jparseElements n r [])
    | '"' :: r => (jparseStringAux (r.length + 1) [] r).map (fun sr => (.jstr sr.1, sr.2))
    | 't' :: 'r' :: 'u' :: 'e' :: r => some (.jbool true, r)
    | 'f' :: 'a' :: 'l' :: 's' :: 'e' :: r => some (.jbool false, r)
    | 'n' :: 'u' :: 'l' :: 'l' :: r => some (.jnull, r)
    | other => (jparseNumber other).map (fun qr => (.jnum qr.1, qr.2))

/-- Object members at a position where a `"key": value` pair is expected. -/
def jparseMembers : Nat → List Char → List (String × JsonVal) →
    Option (JsonVal × List Char)
  | 0, _, _ => none
  | n+1, cs, acc =>
    match cs.dropWhile jWs with
    | '"' :: r =>
      (match jparseStringAux (r.length + 1) [] r with
       | none => none
       | some (key, r2) =>
         match r2.dropWhile jWs with
         | ':' :: r3 =>
           (match jparseVal n r3 with
            | none => none
            | some (v, r4) =>
              match r4.dropWhile jWs with
              | ',' :: r5 => jparseMembers n r5 (acc ++ [(key, v)])
              | '\x7d' :: r5 => some (.jobj (acc ++ [(key, v)]), r5)
              | _ => none)
         | _ => none)
    | _ => none

/-- Array elements at a position where a value is expected. -/
def jparseElements : Nat → List Char → List JsonVal → Option (JsonVal × List Char)
  | 0, _, _ => none
  | n+1, cs, acc =>
    match jparseVal n cs with
    | none => none
    | some (v, r) =>
      match r.dropWhile jWs with
      | ',' :: r2 => jparseElements n r2 (acc ++ [v])
      | ']' :: r2 => some (.jarr (acc ++ [v]), r2)
      | _ => none

end

/-- `json.loads`: one JSON value followed by only whitespace; `none` models
`json.JSONDecodeError`. -/
def jsonLoads (s : String) : Option JsonVal :=
  match jparseVal (2 * s.length + 2) s.data with
  | some (v, rest) => if rest.dropWhile jWs = [] then some v else none
  | none => none

/-- Python `dict.get` on an object decoded by `json.loads`: later duplicate
keys override earlier ones. -/
def pyGet (kvs : List (String × JsonVal)) (key : String) : Option JsonVal :=
  (kvs.reverse.find? (fun kv => kv.1 = key)).map (fun kv => kv.2)

/-- Python `float(str)` on decimal literals: optional surrounding whitespace,
optional sign, integer and/or fractional digits, optional exponent.
(`inf`/`nan`/underscore separators are not modelled; no claim depends on
them.) -/
def strToFloat (s : String) : Option ℚ :=
  let trimmed := ((s.data.dropWhile pyIsSpace).reverse.dropWhile pyIsSpace).reverse
  let signAndRest : Bool × List Char :=
    match trimmed with
    | '+' :: r => (false, r)
    | '-' :: r => (true, r)
    | _ => (false, trimmed)
  let neg := signAndRest.1
  let cs := signAndRest.2
  let ip := cs.takeWhile Char.isDigit
  let cs1 := cs.drop ip.length
  let fracAndRest : List Char × List Char :=
    match cs1 with
    | '.' :: r => (r.takeWhile Char.isDigit, r.drop (r.takeWhile Char.isDigit).length)
    | _ => ([], cs1)
  let fp := fracAndRest.1
  let cs2 := fracAndRest.2
  if ip = [] ∧ fp = [] then none
  else
    let mantissa : ℚ := (digitsToNat ip : ℚ) + (digitsToNat fp : ℚ) / ((10 : ℚ) ^ fp.length)
    let withExp : Option ℚ :=
      match cs2 with
      | [] => some mantissa
      | 'e' :: r | 'E' :: r =>
        let signRest : ℤ × List Char :=
          match r with
          | '+' :: q => (1, q)
          | '-' :: q => (-1, q)
          | _ => (1, r)
        let ed := signRest.2.takeWhile Char.isDigit
        if ed = [] ∨ signRest.2.drop ed.length ≠ [] then none
        else some (mantissa * (10 : ℚ) ^ (signRest.1 * (digitsToNat ed : ℤ)))
      | _ => none
    withExp.map (fun v => if neg then -v else v)

/-- Python `float()` applied to a value decoded from JSON: numbers and
booleans convert, numeric strings parse, everything else raises (`None`,
lists and dicts raise TypeError, non-numeric strings raise ValueError). -/
def pyFloat : JsonVal → Option ℚ
  | .jnum q => some q
  | .jbool b => some (if b then 1 else 0)
  | .jstr s => strToFloat s
  | _ => none

/-- `isinstance(x, str)` on a decoded JSON value. -/
def isJStr : JsonVal → Bool
  | .jstr _ => true
  | _ => false

/-- `{"factor": s, "impact": "medium"}` (main.py:434, 436 and 469). -/
def wrapFactor (s : String) : JsonVal :=
  .jobj [("factor", .jstr s), ("impact", .jstr "medium")]

/-- The prediction value assembled by the `/predict` endpoint: the clamped
(or rescued) probability plus the raw risk-factor and recommendation values
handed to `PredictionResponse` (main.py:445-450 and 474-479). -/
structure NormalizedPrediction where
  completion_probability : ℚ
  risk_factors : JsonVal
  recommendations : JsonVal

/-- Stage 1 of the degradation chain (main.py:424-450): field extraction and
normalization on the JSON object decoded from the brace-delimited substring.
`float(...)` applied to a present but uncoercible value raises an exception
that `except json.JSONDecodeError` does not catch; `Except.error` models that
exception escaping the stage. -/
def stage1 (kvs : List (String × JsonVal)) : Except Unit NormalizedPrediction :=
  match pyFloat ((pyGet kvs "completion_probability").getD (.jnum (1/2))) with
  | none => .error ()
  | some q =>
    let completion_probability := max 0 (min 1 q)
    let rf := (pyGet kvs "risk_factors").getD (.jarr [])
    let risk_factors :=
      match rf with
      | .jstr s => JsonVal.jarr [wrapFactor s]
      | .jarr xs =>
          if xs.all isJStr then
            JsonVal.jarr (xs.map (fun x => match x with | .jstr s => wrapFactor s | v => v))
          else .jarr xs
      | v => v
    let recs := (pyGet kvs "recommendations").getD (.jarr [])
    let recommendations :=
      match recs with
      | .jstr s => JsonVal.jarr [.jstr s]
      | v => v
    .ok ⟨completion_probability, risk_factors, recommendations⟩

/-- Case-insensitive match of a lower-case literal pattern at the head of the
text (`re.IGNORECASE` via ASCII lowering of the text character). -/
def lowerMatchAt : List Char → List Char → Bool
  | [], _ => true
  | _ :: _, [] => false
  | p :: ps, c :: cs => p = Char.toLower c && lowerMatchAt ps cs

/-- Value of the capture group `(\d+(?:\.\d+)?)`. -/
def ratOfDigits (ip fp : List Char) : ℚ :=
  (digitsToNat ip : ℚ) + (digitsToNat fp : ℚ) / ((10 : ℚ) ^ fp.length)

/-- First number on the current line: without `re.DOTALL` the `.*?` of the
probability pattern cannot cross a newline. -/
def numberOnLine : List Char → Option ℚ
  | [] => none
  | c :: r =>
    if c = '\n' then none
    else if c.isDigit then
      let ip := (c :: r).takeWhile Char.isDigit
      let fp :=
        match (c :: r).drop ip.length with
        | '.' :: r2 => r2.takeWhile Char.isDigit
        | _ => []
      some (ratOfDigits ip fp)
    else numberOnLine r

/-- `re.search(r"probabilité.*?(\d+(?:\.\d+)?)", text, re.IGNORECASE)`
(main.py:459): leftmost start where the literal matches case-insensitively
and a number follows on the same line. -/
def probSearch : List Char → Option ℚ
  | [] => none
  | c :: r =>
    if lowerMatchAt "probabilité".data (c :: r) then
      match numberOnLine ((c :: r).drop "probabilité".length) with
      | some q => some q
      | none => probSearch r
    else probSearch r

/-- Stop set of the section patterns, `(?:\n\n|\n[A-Z0-9]|$)`; without
`re.MULTILINE`, `$` matches at the end of the text or just before a final
newline. -/
def sectionStop : List Char → Bool
  | [] => true
  | ['\n'] => true
  | '\n' :: '\n' :: _ => true
  | '\n' :: c :: _ => ('A' ≤ c ∧ c ≤ 'Z') ∨ ('0' ≤ c ∧ c ≤ '9')
  | _ => false

/-- Lazy capture `(.*?)` under `re.DOTALL`, up to the first stop position. -/
def captureUntilStop : List Char → List Char
  | [] => []
  | c :: r => if sectionStop (c :: r) then [] else c :: captureUntilStop r

/-- Suffix after the first newline, if any (the lazy `.*?\n` of pattern 1
under `re.DOTALL`). -/
def afterFirstNewline : List Char → Option (List Char)
  | [] => none
  | '\n' :: r => some r
  | _ :: r => afterFirstNewline r

/-- Suffix after the first colon, if any (the lazy `.*?:` of pattern 2). -/
def afterFirstColon : List Char → Option (List Char)
  | [] => none
  | ':' :: r => some r
  | _ :: r => afterFirstColon r

/-- One attempt of `(kw1|kw2).*?\n(.*?)(?:\n\n|\n[A-Z0-9]|$)` at a fixed
start: a keyword must match here and a newline must occur after it. -/
def tryPatternNl (kws : List (List Char)) (cs : List Char) : Option (List Char) :=
  match kws.find? (fun k => lowerMatchAt k cs) with
  | some k => (afterFirstNewline (cs.drop k.length)).map captureUntilStop
  | none => none

/-- One attempt of `(kw1|kw2).*?:(.*?)(?:\n\n|\n[A-Z0-9]|$)` at a fixed
start: a keyword must match here and a colon must occur after it. -/
def tryPatternColon (kws : List (List Char)) (cs : List Char) : Option (List Char) :=
  match kws.find? (fun k => lowerMatchAt k cs) with
  | some k => (afterFirstColon (cs.drop k.length)).map captureUntilStop
  | none => none

/-- `re.search` start-position scan for a fixed single-position attempt. -/
def scanFor (attempt : List Char → Option (List Char)) : List Char → Option (List Char)
  | [] => none
  | c :: r =>
    match attempt (c :: r) with
    | some cap => some cap
    | none => scanFor attempt r

/-- `extract_section` (main.py:488-500): the newline pattern then the colon
pattern, first match wins, group 2 stripped; empty string when neither
matches anywhere. -/
def extract_section (text : String) (keywords : List String) : String :=
  let kws := keywords.map (fun k => k.data)
  match scanFor (tryPatternNl kws) text.data with
  | some cap => pyStrip (String.mk cap)
  | none =>
    match scanFor (tryPatternColon kws) text.data with
    | some cap => pyStrip (String.mk cap)
    | none => ""

/-- The bullet alternatives `(?:\d+\.|-|\*|\•)`. -/
def bulletMarker : List Char → Option (List Char)
  | '-' :: r => some r
  | '*' :: r => some r
  | '•' :: r => some r
  | cs =>
    let ds := cs.takeWhile Char.isDigit
    if ds = [] then none
    else
      match cs.drop ds.length with
      | '.' :: r => some r
      | _ => none

/-- One attempt of the item pattern just after its `(?:^|\n)` anchor:
`[\s]*` bullet `[\s]*` then the lazy capture up to (and consuming) a newline
or the end of the text; returns the capture and the rest after the match. -/
def matchItemAfterAnchor (cs : List Char) : Option (String × List Char) :=
  match bulletMarker (cs.dropWhile pyIsSpace) with
  | none => none
  | some cs2 =>
    let cs3 := cs2.dropWhile pyIsSpace
    let cap := cs3.takeWhile (fun c => c ≠ '\n')
    match cs3.dropWhile (fun c => c ≠ '\n') with
    | '\n' :: r => some (String.mk cap, r)
    | r => some (String.mk cap, r)

/-- `re.findall` scan for item matches anchored at `\n` positions (fuel
bounds the steps; every step consumes at least one character). -/
def itemScan : Nat → List Char → List String
  | 0, _ => []
  | _, [] => []
  | n+1, c :: r =>
    if c = '\n' then
      match matchItemAfterAnchor r with
      | some (cap, rest) => cap :: itemScan n rest
      | none => itemScan n r
    else itemScan n r

/-- `re.findall(r"(?:^|\n)[\s]*(?:\d+\.|-|\*|\•)[\s]*(.*?)(?:\n|$)", text)`
(main.py:506): the `^` anchor applies at position 0, the `\n` anchor at every
later position; a matched trailing newline is consumed by the match. -/
def findListItems (text : String) : List String :=
  match matchItemAfterAnchor text.data with
  | some (cap, rest) => cap :: itemScan text.data.length rest
  | none => itemScan text.data.length text.data

/-- The non-empty stripped lines fallback (main.py:510): `text.split("\n")`,
each line stripped, empty results dropped. -/
def nonEmptyLines (text : String) : List String :=
  ((splitOnPred (fun c => c = '\n') text.data).map String.mk).filterMap (fun line =>
    let s := pyStrip line
    if s = "" then none else some s)

/-- `parse_list_items` (main.py:502-516). -/
def parse_list_items (text : String) : List String :=
  let items := findListItems text
  let items := if items = [] then nonEmptyLines text else items
  if items = [] then [text] else items

/-- The Stage 2–4 rescue path of `/predict` (main.py:457-479): regex
probability rescue (matched number divided by 100, no clamp), section rescue
and list-item parsing for risk factors and recommendations, generic defaults
when a section is absent or empty. -/
def fallbackAnalysis (text : String) : NormalizedPrediction :=
  let probability : ℚ :=
    match probSearch text.data with
    | some q => q / 100
    | none => 1/2
  let factors_section := extract_section text ["facteurs", "risques"]
  let factors :=
    if factors_section ≠ "" then parse_list_items factors_section else ["Délai serré"]
  let recommendations_section := extract_section text ["recommandations", "suggestions"]
  let recommendations :=
    if recommendations_section ≠ "" then parse_list_items recommendations_section
    else ["Planifier les étapes"]
  { completion_probability := probability
    risk_factors := .jarr (factors.map wrapFactor)
    recommendations := .jarr (recommendations.map JsonVal.jstr) }

/-- `text.find("{")`, `text.rfind("}")` and the slice `text[i:j+1]`
(main.py:419-423); `none` when either brace is absent. -/
def jsonCandidate (text : String) : Option String :=
  match text.data.findIdx? (fun c => c = '\x7b'),
        text.data.reverse.findIdx? (fun c => c = '\x7d') with
  | some i, some jr =>
    let j := text.data.length - 1 - jr
    some (String.mk ((text.data.drop i).take (j + 1 - i)))
  | _, _ => none

/-- The degradation chain of `/predict` (main.py:419-479): brace location,
Stage-1 structured extraction, and the Stage 2–4 rescue when no
brace-delimited substring exists or it fails to decode.  A successfully
decoded candidate always starts with a brace, hence is an object;
`Except.error` models an exception escaping to the endpoint's generic
500 handler. -/
def predictChain (text : String) : Except Unit NormalizedPrediction :=
  match jsonCandidate text with
  | some sub =>
    (match jsonLoads sub with
     | some (.jobj kvs) => stage1 kvs
     | _ => .ok (fallbackAnalysis text))
  | none => .ok (fallbackAnalysis text)

/-! ## Helper lemmas -/

/-- `parse_list_items` never returns the empty list: the final fallback
returns the whole text as a single item. -/
lemma parse_list_items_ne_nil (text : String) : parse_list_items text ≠ [] := by
  simp only [parse_list_items]
  split <;> first
  | (split <;> simp_all)
  | simp_all

/-- The time-tier rule appends at most one factor. -/
lemma timeRiskFactors_length_le (q : ℚ) : (timeRiskFactors q).length ≤ 1 := by
  unfold timeRiskFactors
  split_ifs <;> simp

/-- The priority/progress rule appends at most one factor. -/
lemma priorityProgressRiskFactors_length_le (f : Features) :
    (priorityProgressRiskFactors f).length ≤ 1 := by
  unfold priorityProgressRiskFactors
  split_ifs <;> simp

/-- The weekend rule appends at most one factor. -/
lemma weekendRiskFactors_length_le (f : Features) :
    (weekendRiskFactors f).length ≤ 1 := by
  unfold weekendRiskFactors
  split_ifs <;> simp

/-- The off-hours rule appends at most one factor. -/
lemma offHoursRiskFactors_length_le (f : Features) :
    (offHoursRiskFactors f).length ≤ 1 := by
  unfold offHoursRiskFactors
  split_ifs <;> simp

/-- The historical rule appends at most one factor. -/
lemma historicalRiskFactors_length_le (historical_data : Option (List DeadlineInfo)) :
    (historicalRiskFactors historical_data).length ≤ 1 := by
  cases historical_data with
  | none => simp [historicalRiskFactors]
  | some l =>
    simp only [historicalRiskFactors]
    split_ifs <;> simp

/-- Length of the generic-fallback-then-truncate step of the recommendation
generator, for any previously generated list. -/
lemma recommendations_take_bounds (pre : List String) :
    3 ≤ ((if pre.length < 3 then pre ++ genericRecommendations else pre).take 5).length
    ∧ ((if pre.length < 3 then pre ++ genericRecommendations else pre).take 5).length ≤ 5 := by
  have hgen : genericRecommendations.length = 3 := rfl
  constructor
  · rw [List.length_take]
    split_ifs with h
    · rw [List.length_append, hgen]
      omega
    · omega
  · rw [List.length_take]
    omega

/-! ## Claims -/

/-- Claim C10 (confirmed): for every input string, `parse_list_items` returns
a non-empty list; in particular the empty string yields the one-element list
containing the empty string. -/
theorem claim_C10 :
    (∀ text : String, 1 ≤ (parse_list_items text).length)
    ∧ parse_list_items "" = [""] := by
  constructor
  · intro text
    have h := parse_list_items_ne_nil text
    cases hp : parse_list_items text with
    | nil => exact absurd hp h
    | cons a l => simp
  · rfl

/-- Claim C8 (confirmed): each of the five rules of `analyze_deadline_risks`
appends at most one factor, and the returned list has at most 5 entries. -/
theorem claim_C8 (d : DeadlineInfo) (historical_data : Option (List DeadlineInfo))
    (now : PyTime) :
    (timeRiskFactors (extract_deadline_features d now).days_until_deadline).length ≤ 1
    ∧ (priorityProgressRiskFactors (extract_deadline_features d now)).length ≤ 1
    ∧ (weekendRiskFactors (extract_deadline_features d now)).length ≤ 1
    ∧ (offHoursRiskFactors (extract_deadline_features d now)).length ≤ 1
    ∧ (historicalRiskFactors historical_data).length ≤ 1
    ∧ (analyze_deadline_risks d historical_data now).length ≤ 5 := by
  have h1 := timeRiskFactors_length_le (extract_deadline_features d now).days_until_deadline
  have h2 := priorityProgressRiskFactors_length_le (extract_deadline_features d now)
  have h3 := weekendRiskFactors_length_le (extract_deadline_features d now)
  have h4 := offHoursRiskFactors_length_le (extract_deadline_features d now)
  have h5 := historicalRiskFactors_length_le historical_data
  refine ⟨h1, h2, h3, h4, h5, ?_⟩
  simp only [analyze_deadline_risks, List.length_append]
  omega

/-- Claim C7 (confirmed): `generate_deadline_recommendations` returns between
3 and 5 strings, and equals the generation-order concatenation (time tier,
status, priority, risk-keyed, generic fallback when fewer than 3) truncated
to the first 5 entries. -/
theorem claim_C7 (d : DeadlineInfo) (risks : List RiskFactor) (now : PyTime) :
    3 ≤ (generate_deadline_recommendations d risks now).length
    ∧ (generate_deadline_recommendations d risks now).length ≤ 5
    ∧ generate_deadline_recommendations d risks now =
        (let pre := timeRecommendations (extract_deadline_features d now).days_until_deadline
            ++ statusRecommendations (extract_deadline_features d now)
            ++ priorityRecommendations (extract_deadline_features d now)
            ++ riskKeyedRecommendations risks
         (if pre.length < 3 then pre ++ genericRecommendations else pre).take 5) :=
  ⟨(recommendations_take_bounds
      (timeRecommendations (extract_deadline_features d now).days_until_deadline
        ++ statusRecommendations (extract_deadline_features d now)
        ++ priorityRecommendations (extract_deadline_features d now)
        ++ riskKeyedRecommendations risks)).1,
   (recommendations_take_bounds
      (timeRecommendations (extract_deadline_features d now).days_until_deadline
        ++ statusRecommendations (extract_deadline_features d now)
        ++ priorityRecommendations (extract_deadline_features d now)
        ++ riskKeyedRecommendations risks)).2,
   rfl⟩

/-- Claim C3 (confirmed): the `try/except` wrapper of `analyze_deadline`
returns the body's result when the body succeeds and the minimal safe result
(probability 0.5, one generic "Erreur d\'analyse" factor of impact medium,
one generic recommendation to verify the input data) when the body raises;
the embedded body itself is total, so `analyze_deadline` always returns the
assembled analysis. -/
theorem claim_C3 (d : DeadlineInfo) (body : Except String AnalysisResults) :
    (∀ r, body = .ok r → analyze_deadline_catch d body = r)
    ∧ (∀ e, body = .error e →
        analyze_deadline_catch d body = minimalSafeResult d
        ∧ (analyze_deadline_catch d body).completion_probability = 1/2
        ∧ (analyze_deadline_catch d body).risk_factors
            = [⟨"Erreur d\'analyse", "medium", none⟩]
        ∧ (analyze_deadline_catch d body).recommendations
            = ["Vérifier les données de l\'échéance"])
    ∧ (∀ historical_data t1 t2 t3 t4 t5,
        analyze_deadline d historical_data t1 t2 t3 t4 t5
          = analyzeBody d historical_data t1 t2 t3 t4 t5) := by
  refine ⟨?_, ?_, ?_⟩
  · intro r h
    rw [h]
    rfl
  · intro e h
    rw [h]
    exact ⟨rfl, rfl, rfl, rfl⟩
  · intro historical_data t1 t2 t3 t4 t5
    rfl

/-- Witness for claim C3 at a concrete record and a failing body. -/
theorem claim_C3_witness :
    analyze_deadline_catch ⟨none, "tâche", none, 0, "nouvelle", "basse", none, none⟩
        (.error "boom")
      = minimalSafeResult ⟨none, "tâche", none, 0, "nouvelle", "basse", none, none⟩
    ∧ (analyze_deadline_catch ⟨none, "tâche", none, 0, "nouvelle", "basse", none, none⟩
        (.error "boom")).completion_probability = 1/2
    ∧ (analyze_deadline_catch ⟨none, "tâche", none, 0, "nouvelle", "basse", none, none⟩
        (.error "boom")).risk_factors = [⟨"Erreur d\'analyse", "medium", none⟩]
    ∧ (analyze_deadline_catch ⟨none, "tâche", none, 0, "nouvelle", "basse", none, none⟩
        (.error "boom")).recommendations = ["Vérifier les données de l\'échéance"] :=
  (claim_C3 ⟨none, "tâche", none, 0, "nouvelle", "basse", none, none⟩
    (.error "boom")).2.1 "boom" rfl

/-- When the record is overdue, the risk list starts with the critical
time-tier factor. -/
lemma analyze_risks_overdue_cons (d : DeadlineInfo)
    (historical_data : Option (List DeadlineInfo)) (now : PyTime)
    (hneg : (extract_deadline_features d now).days_until_deadline < 0) :
    ∃ rest, analyze_deadline_risks d historical_data now =
      (⟨"Échéance dépassée", "critical",
        some ("L\'échéance est déjà dépassée de "
          ++ toString (Int.natAbs (intTrunc
              (extract_deadline_features d now).days_until_deadline))
          ++ " jours.")⟩ : RiskFactor) :: rest := by
  refine ⟨priorityProgressRiskFactors (extract_deadline_features d now)
      ++ weekendRiskFactors (extract_deadline_features d now)
      ++ offHoursRiskFactors (extract_deadline_features d now)
      ++ historicalRiskFactors historical_data, ?_⟩
  simp only [analyze_deadline_risks, timeRiskFactors, if_pos hneg, List.cons_append,
    List.nil_append, List.append_assoc]

/-- Claim C6 (confirmed): with the due-timestamp strictly before the
snapshot, the extracted overdue flag is 1 and the risk list is non-empty with
first impact "critical". -/
theorem claim_C6 (d : DeadlineInfo) (historical_data : Option (List DeadlineInfo))
    (now : PyTime) (h : d.deadlineDate < now) :
    (extract_deadline_features d now).is_overdue = 1
    ∧ analyze_deadline_risks d historical_data now ≠ []
    ∧ (analyze_deadline_risks d historical_data now).head?.map RiskFactor.impact
        = some "critical" := by
  have hneg : (extract_deadline_features d now).days_until_deadline < 0 :=
    div_neg_of_neg_of_pos (sub_neg.mpr h) (by norm_num)
  obtain ⟨rest, hr⟩ := analyze_risks_overdue_cons d historical_data now hneg
  refine ⟨?_, ?_, ?_⟩
  · have hdef : (extract_deadline_features d now).is_overdue
        = if (extract_deadline_features d now).days_until_deadline < 0 then 1 else 0 := rfl
    rw [hdef, if_pos hneg]
  · rw [hr]
    simp
  · rw [hr]
    rfl

/-- Witness for claim C6 at a concrete overdue record. -/
theorem claim_C6_witness :
    (extract_deadline_features ⟨none, "tâche", none, 0, "nouvelle", "basse", none, none⟩
        86400).is_overdue = 1
    ∧ analyze_deadline_risks ⟨none, "tâche", none, 0, "nouvelle", "basse", none, none⟩
        none 86400 ≠ []
    ∧ (analyze_deadline_risks ⟨none, "tâche", none, 0, "nouvelle", "basse", none, none⟩
        none 86400).head?.map RiskFactor.impact = some "critical" :=
  claim_C6 ⟨none, "tâche", none, 0, "nouvelle", "basse", none, none⟩ none 86400
    (by norm_num)

/-- The base bucket never goes below 0.10. -/
lemma baseProbability_ge (q : ℚ) : 1/10 ≤ baseProbability q := by
  unfold baseProbability
  split_ifs <;> norm_num

/-- The priority adjustment is never negative. -/
lemma priorityAdjustment_nonneg (n : Nat) : 0 ≤ priorityAdjustment n := by
  unfold priorityAdjustment
  split_ifs <;> norm_num

/-- The status adjustment is never negative. -/
lemma statusAdjustment_nonneg (q : ℚ) : 0 ≤ statusAdjustment q := by
  unfold statusAdjustment
  split_ifs <;> norm_num

/-- The historical completion rate is never negative. -/
lemma historicalRate_nonneg (l : List DeadlineInfo) : 0 ≤ historicalRate l := by
  unfold historicalRate
  positivity

/-- Claim C9 (confirmed): `estimate_completion_probability` is at least
7/200 = 0.035 (worst case: base 0.10, no positive adjustments, weekend
penalty 0.05, blend with historical rate 0), and in particular never 0. -/
theorem claim_C9 (d : DeadlineInfo) (historical_data : Option (List DeadlineInfo))
    (now : PyTime) :
    7/200 ≤ estimate_completion_probability d historical_data now
    ∧ estimate_completion_probability d historical_data now ≠ 0 := by
  have main : 7/200 ≤ estimate_completion_probability d historical_data now := by
    have hb := baseProbability_ge (extract_deadline_features d now).days_until_deadline
    have hpa := priorityAdjustment_nonneg (extract_deadline_features d now).priority_value
    have hsa := statusAdjustment_nonneg (extract_deadline_features d now).status_progress
    have hW : 1/20 ≤
        (if (extract_deadline_features d now).is_weekend_deadline ≠ 0 then
          baseProbability (extract_deadline_features d now).days_until_deadline
            + priorityAdjustment (extract_deadline_features d now).priority_value
            + statusAdjustment (extract_deadline_features d now).status_progress - 1/20
        else
          baseProbability (extract_deadline_features d now).days_until_deadline
            + priorityAdjustment (extract_deadline_features d now).priority_value
            + statusAdjustment (extract_deadline_features d now).status_progress) := by
      split_ifs <;> linarith
    cases historical_data with
    | none =>
      simp only [estimate_completion_probability]
      refine le_trans (le_min (by norm_num) (by linarith)) (le_max_right 0 _)
    | some l =>
      simp only [estimate_completion_probability]
      by_cases hl : 0 < l.length
      · rw [if_pos hl]
        have hrate := historicalRate_nonneg l
        refine le_trans (le_min (by norm_num) (by linarith)) (le_max_right 0 _)
      · rw [if_neg hl]
        refine le_trans (le_min (by norm_num) (by linarith)) (le_max_right 0 _)
  exact ⟨main, (ne_of_gt (lt_of_lt_of_le (by norm_num) main))⟩

/-- Claim C5 (confirmed): overdue by exactly 5 days, non-weekend due date,
priority "basse", status "nouvelle", and 4 historical records with exactly 1
completed-set label give `0.7·0.10 + 0.3·0.25 = 0.145 = 29/200`, unchanged by
the final clamp. -/
theorem claim_C5 (d : DeadlineInfo) (l : List DeadlineInfo) (now : PyTime)
    (hdays : (d.deadlineDate - now) / 86400 = -5)
    (hwd : weekdayOf d.deadlineDate < 5)
    (hp : d.priority = "basse")
    (hs : d.status = "nouvelle")
    (hlen : l.length = 4)
    (hcount : l.countP (fun h => completedStatuses.contains (pyLower h.status)) = 1) :
    estimate_completion_probability d (some l) now = 29/200 := by
  have h1 : (extract_deadline_features d now).days_until_deadline = -5 := by
    have hdef : (extract_deadline_features d now).days_until_deadline
        = (d.deadlineDate - now) / 86400 := rfl
    rw [hdef, hdays]
  have h2 : (extract_deadline_features d now).priority_value = 1 := by
    have hdef : (extract_deadline_features d now).priority_value
        = priorityMap (pyLower d.priority) := rfl
    rw [hdef, hp]
    rfl
  have h3 : (extract_deadline_features d now).status_progress = 0 := by
    have hdef : (extract_deadline_features d now).status_progress
        = statusProgressMap (pyLower d.status) := rfl
    rw [hdef, hs]
    rfl
  have h4 : (extract_deadline_features d now).is_weekend_deadline = 0 := by
    have hdef : (extract_deadline_features d now).is_weekend_deadline
        = if 5 ≤ weekdayOf d.deadlineDate then 1 else 0 := rfl
    rw [hdef, if_neg (not_le.mpr hwd)]
  have hrate : historicalRate l = 1/4 := by
    unfold historicalRate
    rw [hcount, hlen]
    norm_num
  simp only [estimate_completion_probability, h1, h2, h3, h4, hlen, hrate]
  norm_num [baseProbability, priorityAdjustment, statusAdjustment]

/-- Witness for claim C5: a concrete Thursday-midnight due date 5 days in the
past and 4 historical records of which exactly one is "complétée". -/
theorem claim_C5_witness :
    estimate_completion_probability
      ⟨none, "tâche", none, 259200, "nouvelle", "basse", none, none⟩
      (some [⟨none, "h1", none, 0, "complétée", "basse", none, none⟩,
             ⟨none, "h2", none, 0, "nouvelle", "basse", none, none⟩,
             ⟨none, "h3", none, 0, "en cours", "basse", none, none⟩,
             ⟨none, "h4", none, 0, "annulée", "basse", none, none⟩])
      691200 = 29/200 :=
  claim_C5 ⟨none, "tâche", none, 259200, "nouvelle", "basse", none, none⟩
    [⟨none, "h1", none, 0, "complétée", "basse", none, none⟩,
     ⟨none, "h2", none, 0, "nouvelle", "basse", none, none⟩,
     ⟨none, "h3", none, 0, "en cours", "basse", none, none⟩,
     ⟨none, "h4", none, 0, "annulée", "basse", none, none⟩]
    691200 (by norm_num) (by norm_num [weekdayOf]) rfl rfl rfl (by decide)

/-- Outside the overdue time tier, no rule of the risk analyzer produces a
factor of impact "critical". -/
lemma critical_member_overdue (d : DeadlineInfo)
    (historical_data : Option (List DeadlineInfo)) (now : PyTime) (r : RiskFactor)
    (hr : r ∈ analyze_deadline_risks d historical_data now)
    (hc : r.impact = "critical") :
    (extract_deadline_features d now).days_until_deadline < 0 := by
  by_contra h0
  simp only [analyze_deadline_risks, List.mem_append] at hr
  rcases hr with ((((ht | hp) | hw) | hh) | hhist)
  · unfold timeRiskFactors at ht
    rw [if_neg h0] at ht
    split_ifs at ht <;> simp_all
  · unfold priorityProgressRiskFactors at hp
    split_ifs at hp <;> simp_all
  · unfold weekendRiskFactors at hw
    split_ifs at hw <;> simp_all
  · unfold offHoursRiskFactors at hh
    split_ifs at hh <;> simp_all
  · cases historical_data with
    | none => simp [historicalRiskFactors] at hhist
    | some l =>
      simp only [historicalRiskFactors] at hhist
      split_ifs at hhist <;> simp_all

/-- The risk list starts with a factor of impact "critical" exactly when the
extracted days-until-due is negative. -/
lemma risks_head_critical_iff (d : DeadlineInfo)
    (historical_data : Option (List DeadlineInfo)) (now : PyTime) :
    (analyze_deadline_risks d historical_data now).head?.map RiskFactor.impact
        = some "critical"
      ↔ (extract_deadline_features d now).days_until_deadline < 0 := by
  constructor
  · intro hh
    cases hl : analyze_deadline_risks d historical_data now with
    | nil =>
      rw [hl] at hh
      simp at hh
    | cons a rest =>
      rw [hl] at hh
      simp only [List.head?_cons, Option.map_some'] at hh
      have ha : a ∈ analyze_deadline_risks d historical_data now := by
        rw [hl]
        exact List.mem_cons_self a rest
      exact critical_member_overdue d historical_data now a ha (Option.some.inj hh)
  · intro h0
    obtain ⟨rest, hr⟩ := analyze_risks_overdue_cons d historical_data now h0
    rw [hr]
    rfl

/-- The extracted overdue flag is 1 exactly when days-until-due is
negative. -/
lemma is_overdue_eq_one_iff (d : DeadlineInfo) (now : PyTime) :
    (extract_deadline_features d now).is_overdue = 1
      ↔ (extract_deadline_features d now).days_until_deadline < 0 := by
  have hdef : (extract_deadline_features d now).is_overdue
      = if (extract_deadline_features d now).days_until_deadline < 0 then 1 else 0 := rfl
  rw [hdef]
  split_ifs with h <;> simp [h]

/-- Claim C4 (corrected, amended form): `extract_deadline_features` takes its
own now-snapshot inside each call, and the orchestrator body triggers one
extraction per component; the assembled fields of one result are mutually
consistent when those snapshots coincide — with a single common snapshot the
overdue feature flag is 1 exactly when the first risk factor has impact
"critical". -/
theorem claim_C4 (d : DeadlineInfo) (historical_data : Option (List DeadlineInfo))
    (t : PyTime) (f : Features)
    (hf : (analyzeBody d historical_data t t t t t).features = some f) :
    f.is_overdue = 1 ↔
      (analyzeBody d historical_data t t t t t).risk_factors.head?.map RiskFactor.impact
        = some "critical" := by
  have hfe : (analyzeBody d historical_data t t t t t).features
      = some (extract_deadline_features d t) := rfl
  rw [hfe] at hf
  have hfeq : f = extract_deadline_features d t := (Option.some.inj hf).symm
  have hrk : (analyzeBody d historical_data t t t t t).risk_factors
      = analyze_deadline_risks d historical_data t := rfl
  rw [hfeq, hrk]
  exact (is_overdue_eq_one_iff d t).trans (risks_head_critical_iff d historical_data t).symm

/-- Claim C4 counterexample: the orchestrator body takes a fresh snapshot per
component, so with the clock crossing the due instant 864000 between the
feature-extraction snapshot (863990) and the later component snapshots
(864010), the one assembled result says not-overdue in its features while its
first risk factor is the critical overdue factor — the fields are not
mutually consistent against any single snapshot. -/
theorem claim_C4_counterexample :
    ((analyzeBody ⟨none, "tâche", none, 864000, "nouvelle", "basse", none, none⟩ none
        863990 864010 864010 864010 864010).features.map Features.is_overdue = some 0)
    ∧ ((analyzeBody ⟨none, "tâche", none, 864000, "nouvelle", "basse", none, none⟩ none
        863990 864010 864010 864010 864010).risk_factors.head?.map RiskFactor.impact
        = some "critical") := by
  constructor
  · have h1 : (analyzeBody ⟨none, "tâche", none, 864000, "nouvelle", "basse", none, none⟩
        none 863990 864010 864010 864010 864010).features
        = some (extract_deadline_features
            ⟨none, "tâche", none, 864000, "nouvelle", "basse", none, none⟩ 863990) := rfl
    rw [h1]
    simp only [Option.map_some', Option.some.injEq]
    have h2 : (extract_deadline_features
        ⟨none, "tâche", none, 864000, "nouvelle", "basse", none, none⟩ 863990).is_overdue
        = if ((864000 : ℚ) - 863990) / 86400 < 0 then 1 else 0 := rfl
    rw [h2, if_neg (by norm_num)]
  · have hneg : (extract_deadline_features
        ⟨none, "tâche", none, 864000, "nouvelle", "basse", none, none⟩
          864010).days_until_deadline < 0 := by
      have hdef : (extract_deadline_features
          ⟨none, "tâche", none, 864000, "nouvelle", "basse", none, none⟩
            864010).days_until_deadline = ((864000 : ℚ) - 864010) / 86400 := rfl
      rw [hdef]
      norm_num
    obtain ⟨rest, hr⟩ := analyze_risks_overdue_cons
      ⟨none, "tâche", none, 864000, "nouvelle", "basse", none, none⟩ none 864010 hneg
    have hrk : (analyzeBody ⟨none, "tâche", none, 864000, "nouvelle", "basse", none, none⟩
        none 863990 864010 864010 864010 864010).risk_factors
        = analyze_deadline_risks
            ⟨none, "tâche", none, 864000, "nouvelle", "basse", none, none⟩ none 864010 := rfl
    rw [hrk, hr]
    rfl

/-- Witness for claim C4's amended consistency statement at one common
snapshot with an overdue record. -/
theorem claim_C4_witness :
    (extract_deadline_features
        ⟨none, "projet", none, 86400, "nouvelle", "basse", none, none⟩ 172800).is_overdue = 1 ↔
      (analyzeBody ⟨none, "projet", none, 86400, "nouvelle", "basse", none, none⟩ none
        172800 172800 172800 172800 172800).risk_factors.head?.map RiskFactor.impact
        = some "critical" :=
  claim_C4 ⟨none, "projet", none, 86400, "nouvelle", "basse", none, none⟩ none 172800
    (extract_deadline_features ⟨none, "projet", none, 86400, "nouvelle", "basse", none, none⟩
      172800) rfl

/-- Claim C1 (corrected, amended form): the Stage-1 exit always clamps the
probability to [0, 1] (but passes the risk-factor and recommendation values
through as parsed, which may be empty lists — see the counterexample), while
the Stage 2–4 rescue exit always yields non-empty risk-factor and
recommendation lists (but an unclamped probability). -/
theorem claim_C1 :
    (∀ (kvs : List (String × JsonVal)) (out : NormalizedPrediction),
        stage1 kvs = .ok out →
        0 ≤ out.completion_probability ∧ out.completion_probability ≤ 1)
    ∧ (∀ text : String,
        (∃ rf, (fallbackAnalysis text).risk_factors = .jarr rf ∧ rf ≠ [])
        ∧ (∃ rc, (fallbackAnalysis text).recommendations = .jarr rc ∧ rc ≠ [])) := by
  constructor
  · intro kvs out h
    unfold stage1 at h
    cases hq : pyFloat ((pyGet kvs "completion_probability").getD (.jnum (1/2))) with
    | none =>
      simp only [hq] at h
      exact Except.noConfusion h
    | some q =>
      simp only [hq] at h
      injection h with h'
      subst h'
      exact ⟨le_max_left 0 _, max_le (by norm_num) (min_le_left 1 q)⟩
  · intro text
    constructor
    · refine ⟨(if extract_section text ["facteurs", "risques"] ≠ "" then
            parse_list_items (extract_section text ["facteurs", "risques"])
          else ["Délai serré"]).map wrapFactor, rfl, ?_⟩
      intro hmap
      rw [List.map_eq_nil_iff] at hmap
      split_ifs at hmap with hs
      exact parse_list_items_ne_nil _ hmap
    · refine ⟨(if extract_section text ["recommandations", "suggestions"] ≠ "" then
            parse_list_items (extract_section text ["recommandations", "suggestions"])
          else ["Planifier les étapes"]).map JsonVal.jstr, rfl, ?_⟩
      intro hmap
      rw [List.map_eq_nil_iff] at hmap
      split_ifs at hmap with hs
      exact parse_list_items_ne_nil _ hmap

/-- Claim C1 counterexample: the Stage-1 exit on the text `"{}"` returns
empty risk-factor and recommendation lists, and the rescue exit on
`"une probabilité 250"` returns probability 2.5, outside [0, 1]. -/
theorem claim_C1_counterexample :
    predictChain "\x7b\x7d"
      = .ok ⟨1/2, .jarr [], .jarr []⟩
    ∧ predictChain "une probabilité 250"
      = .ok ⟨5/2, .jarr [wrapFactor "Délai serré"],
          .jarr [.jstr "Planifier les étapes"]⟩ := by
  constructor
  · have h1 : predictChain "\x7b\x7d" = stage1 [] := rfl
    have h2 : stage1 []
        = .ok ⟨max 0 (min 1 (1/2 : ℚ)), .jarr [], .jarr []⟩ := rfl
    rw [h1, h2, min_eq_right (by norm_num : (1/2 : ℚ) ≤ 1),
      max_eq_right (by norm_num : (0 : ℚ) ≤ 1/2)]
  · have h1 : predictChain "une probabilité 250"
        = .ok (fallbackAnalysis "une probabilité 250") := rfl
    have h2 : fallbackAnalysis "une probabilité 250"
        = ⟨ratOfDigits ['2', '5', '0'] [] / 100, .jarr [wrapFactor "Délai serré"],
           .jarr [.jstr "Planifier les étapes"]⟩ := rfl
    have h3 : ratOfDigits ['2', '5', '0'] [] = 250 := by
      have hd : digitsToNat ['2', '5', '0'] = 250 := by decide
      have hd0 : digitsToNat ([] : List Char) = 0 := rfl
      unfold ratOfDigits
      rw [hd, hd0]
      norm_num
    rw [h1, h2, h3]
    norm_num

/-- Witness for claim C1's amended Stage-1 clamp at the empty JSON object. -/
theorem claim_C1_witness :
    0 ≤ (⟨1/2, JsonVal.jarr [], JsonVal.jarr []⟩
          : NormalizedPrediction).completion_probability
    ∧ (⟨1/2, JsonVal.jarr [], JsonVal.jarr []⟩
          : NormalizedPrediction).completion_probability ≤ 1 :=
  claim_C1.1 [] ⟨1/2, .jarr [], .jarr []⟩ (by
    have h2 : stage1 []
        = .ok ⟨max 0 (min 1 (1/2 : ℚ)), .jarr [], .jarr []⟩ := rfl
    rw [h2, min_eq_right (by norm_num : (1/2 : ℚ) ≤ 1),
      max_eq_right (by norm_num : (0 : ℚ) ≤ 1/2)])

/-- Claim C2 (corrected, amended form): in Stage 1 the probability field
defaults to 0.5 when absent; when present and coercible it is coerced and
clamped to [0, 1]; when present but uncoercible the stage raises and the
whole operation fails (neither the 0.5 default nor Stage 2 applies); a JSON
decode error on the brace-delimited substring falls through to the rescue
path. -/
theorem claim_C2 :
    (∀ (kvs : List (String × JsonVal)) (out : NormalizedPrediction),
        pyGet kvs "completion_probability" = none → stage1 kvs = .ok out →
        out.completion_probability = 1/2)
    ∧ (∀ (kvs : List (String × JsonVal)) (v : JsonVal) (q : ℚ),
        pyGet kvs "completion_probability" = some v → pyFloat v = some q →
        ∃ out, stage1 kvs = .ok out ∧ out.completion_probability = max 0 (min 1 q))
    ∧ (∀ (kvs : List (String × JsonVal)) (v : JsonVal),
        pyGet kvs "completion_probability" = some v → pyFloat v = none →
        stage1 kvs = .error ())
    ∧ (∀ (text sub : String),
        jsonCandidate text = some sub → jsonLoads sub = none →
        predictChain text = .ok (fallbackAnalysis text)) := by
  refine ⟨?_, ?_, ?_, ?_⟩
  · intro kvs out hget h
    unfold stage1 at h
    simp only [hget, Option.getD_none, pyFloat] at h
    injection h with h'
    subst h'
    show max 0 (min 1 (1/2 : ℚ)) = 1/2
    rw [min_eq_right (by norm_num : (1/2 : ℚ) ≤ 1)]
    exact max_eq_right (by norm_num)
  · intro kvs v q hget hco
    unfold stage1
    simp only [hget, Option.getD_some, hco]
    exact ⟨_, rfl, rfl⟩
  · intro kvs v hget hco
    unfold stage1
    simp only [hget, Option.getD_some, hco]
  · intro text sub hcand hload
    unfold predictChain
    simp only [hcand, hload]

/-- Claim C2 counterexample: with the probability field present but not
coercible to a number, `float(...)` raises a `ValueError` that the
`except json.JSONDecodeError` clause does not catch — the operation fails
instead of defaulting to 0.5 or falling through to Stage 2. -/
theorem claim_C2_counterexample :
    predictChain "\x7b\"completion_probability\": \"high\"\x7d" = .error () := rfl

/-- Witness for claim C2's amended coercion-and-clamp case at a present
numeric field. -/
theorem claim_C2_witness :
    ∃ out, stage1 [("completion_probability", JsonVal.jnum 2)] = .ok out
      ∧ out.completion_probability = max 0 (min 1 2) :=
  claim_C2.2.1 [("completion_probability", .jnum 2)] (.jnum 2) 2 rfl rfl

end DeadlinePoc
